import Mathlib

/-!
Verification of the registration orchestrator `register_binary`
(`suite2p/registration/main.py`) against its natural-language specification.

The orchestrator is embedded shallowly: the session configuration dictionary
becomes the structure `Ops`, the filesystem facts and the outputs of the
numerical kernels that live outside the file under verification (the batch
registration generator, the second-channel shift replicator, the reference
image builder, the block partitioner and the crop calculator) are packaged in
the structure `World` and in definitions whose doc comments start with
`Modelled from the spec:`.  Machine pixel values are modelled as rationals so
that the mean-image divisions are exact.
-/

namespace Suite2p

/-- A frame (or accumulated image) is a flat row-major list of `Ly*Lx`
rational pixel values. -/
abbrev Img := List ℚ

/-- The session configuration dictionary of `register_binary`, restricted to
the keys the function reads or writes.  Python key presence is modelled as
follows: `keep_movie_raw` absent is `false`; the displacement-history arrays
(`yoff` … `corrXY1`) are `Option`s because the source tests `'yoff' not in ops`;
the mean images are kept in the association list `imgStore` because the source
chooses the key to write at run time. -/
structure Ops where
  Ly : Nat := 1
  Lx : Nat := 1
  batch_size : Nat := 500
  nframes : Nat := 0
  frames_include : Int := -1
  nchannels : Nat := 1
  functional_chan : Nat := 1
  align_by_chan : Nat := 1
  nonrigid : Bool := false
  nblocks : Nat × Nat := (0, 0)
  blocks_made : Bool := false
  keep_movie_raw : Bool := false
  bidiphase : Int := 0
  bidi_corrected : Bool := false
  refImg : Option Img := none
  yoff : Option (List ℚ) := none
  xoff : Option (List ℚ) := none
  corrXY : Option (List ℚ) := none
  yoff1 : Option (List (List ℚ)) := none
  xoff1 : Option (List (List ℚ)) := none
  corrXY1 : Option (List (List ℚ)) := none
  badframes : List Bool := []
  imgStore : List (String × Img) := []
  data_path : List String := []
  ops_path : Option String := none
  reg_tif : Bool := false
  reg_tif_chan2 : Bool := false
  yrange : ℚ × ℚ := (0, 0)
  xrange : ℚ × ℚ := (0, 0)
  deriving Repr, DecidableEq

/-- The environment of a run: filesystem facts read by `register_binary`, and
the per-frame outputs of the numerical kernels that are external to the file
under verification.  `yoff_of i` / `xoff_of i` / `corr_of i` is the rigid
displacement record the batch engine computes for frame `i`; `yoff1_of` etc.
are the per-block records; `aligned_frame i` / `alt_frame i` are the corrected
pixel data of frame `i` on the alignment / alternate channel. -/
structure World where
  raw_file_size : Nat := 0
  reg_file_size : Nat := 0
  raw_file_exists : Bool := false
  bad_frames_file : Option (List Nat) := none
  ref_image : Img := []
  ref_bidi : Int := 0
  yoff_of : Nat → ℚ := fun _ => 0
  xoff_of : Nat → ℚ := fun _ => 0
  corr_of : Nat → ℚ := fun _ => 0
  yoff1_of : Nat → List ℚ := fun _ => []
  xoff1_of : Nat → List ℚ := fun _ => []
  corr1_of : Nat → List ℚ := fun _ => []
  aligned_frame : Nat → Img := fun _ => []
  alt_frame : Nat → Img := fun _ => []

/-- Source line 49: the byte size used to derive `nframes` comes from
`raw_file` when `keep_movie_raw` is set and the raw file exists, else from
`reg_file`. -/
def source_size (w : World) (ops : Ops) : Nat :=
  if ops.keep_movie_raw && w.raw_file_exists then w.raw_file_size else w.reg_file_size

/-- Source lines 46-50: the resolved frame count.  With an explicit cap
(`frames_include ≠ -1`) it is `min nframes frames_include`; otherwise it is the
source file's byte size divided by `2*Ly*Lx` (two bytes per uint16 pixel),
truncated. -/
def resolved_nframes (w : World) (ops : Ops) : Int :=
  if ops.frames_include ≠ -1 then min (ops.nframes : Int) ops.frames_include
  else ((source_size w ops / (2 * ops.Ly * ops.Lx) : Nat) : Int)

/-- Source lines 60-62: the effective raw flag is the caller's `raw` argument
and-ed with `keep_movie_raw` being present and true and the raw file existing
on disk. -/
def resolved_raw (w : World) (ops : Ops) (raw0 : Bool) : Bool :=
  raw0 && (ops.keep_movie_raw && w.raw_file_exists)

/-- Modelled from the spec: BlockPartitioner (`nonrigid.make_blocks`, not part
of the file under verification) derives the overlapping block grid for
nonrigid registration.  The grid geometry is irrelevant to the orchestrator
claims; its dimensions `nblocks` are taken from the configured hints, so the
model only records that the grid bookkeeping was installed. -/
def make_blocks (ops : Ops) : Ops :=
  { ops with blocks_made := true }

/-- Modelled from the spec: the displacement history produced by the batch
engine — one record per frame, in temporal frame order, so after the final
batch the concatenated array holds entry `f i` at index `i`. -/
def offHist (f : Nat → ℚ) (n : Nat) : List ℚ :=
  (List.range n).map f

/-- Modelled from the spec: the per-block displacement history — one row of
block records per frame, in temporal frame order. -/
def offHist1 (f : Nat → List ℚ) (n : Nat) : List (List ℚ) :=
  (List.range n).map f

/-- The all-zero image of a given pixel count. -/
def imgZero (sz : Nat) : Img :=
  List.replicate sz 0

/-- Pointwise image (or offset-vector) addition. -/
def imgAdd (a b : Img) : Img :=
  List.zipWith (· + ·) a b

/-- Pointwise division of an image by a scalar. -/
def imgDiv (a : Img) (q : ℚ) : Img :=
  a.map (fun p => p / q)

/-- Rowwise addition of per-frame block-offset matrices. -/
def matAdd (a b : List (List ℚ)) : List (List ℚ) :=
  List.zipWith imgAdd a b

/-- Modelled from the spec: the running sum image after `n` frames — the
accumulator of all corrected frames yielded by the streaming engine. -/
def frameSum (f : Nat → Img) (sz n : Nat) : Img :=
  (List.range n).foldl (fun acc i => imgAdd acc (f i)) (imgZero sz)

/-- Number of batches in a full pass: `ceil (n / bs)`; this is the value
`k + 1` holds after the last iteration of an enumerated batch loop. -/
def nbatches (n bs : Nat) : Nat :=
  (n + bs - 1) / bs

/-- Source line 169: `ops['badframes'][badframes] = True` — set every listed
index to `true` (the claims only concern in-range indices; `List.set` is a
no-op out of range where numpy would raise). -/
def markBad (bf : List Bool) (idxs : List Nat) : List Bool :=
  idxs.foldl (fun acc i => acc.set i true) bf

/-- Look a mean image up in the configuration by its key (most recently
written entry first). -/
def lookupStore (ops : Ops) (k : String) : Option Img :=
  ops.imgStore.lookup k

/-- Largest absolute value in a displacement history. -/
def maxAbs (l : List ℚ) : ℚ :=
  l.foldl (fun m q => max m |q|) 0

/-- Modelled from the spec: CropCalculator (`compute_crop`, not part of the
file under verification) — per axis, the maximum absolute observed shift over
all frames (and all blocks when nonrigid) bounds the valid region
`(max_shift, L - max_shift)`. -/
def compute_crop (ops : Ops) : Ops :=
  let my := max (maxAbs (ops.yoff.getD []))
    (if ops.nonrigid then maxAbs (ops.yoff1.getD []).flatten else 0)
  let mx := max (maxAbs (ops.xoff.getD []))
    (if ops.nonrigid then maxAbs (ops.xoff1.getD []).flatten else 0)
  { ops with yrange := (my, (ops.Ly : ℚ) - my), xrange := (mx, (ops.Lx : ℚ) - mx) }

/-- Source lines 66-77: use the caller's reference image when given (skipping
reference construction and the scan-phase estimate), else build one and store
the estimated `bidiphase`; either way record the reference in the
configuration.  The returned flag says whether the builder ran. -/
def stage_ref (w : World) (ops : Ops) (refImg : Option Img) : Ops × Bool :=
  match refImg with
  | some r => ({ ops with refImg := some r }, false)
  | none => ({ ops with bidiphase := w.ref_bidi, refImg := some w.ref_image }, true)

/-- Source line 105: the key under which the alignment-channel mean image is
stored. -/
def mean_img_key (ops : Ops) : String :=
  if ops.nchannels == 1 || ops.functional_chan == ops.align_by_chan then "meanImg"
  else "meanImage_chan2"

/-- Source lines 104-106: after the engine's last batch, divide the running
sum image by `nframes` and store it under `mean_img_key`. -/
def stage_mean_align (w : World) (ops : Ops) : Ops :=
  let sum_img := frameSum w.aligned_frame (ops.Ly * ops.Lx) ops.nframes
  { ops with imgStore :=
      (mean_img_key ops, imgDiv sum_img (ops.nframes : ℚ)) :: ops.imgStore }

/-- Source line 139: the key under which the alternate-channel mean image is
stored. -/
def meanImg_key_alt (ops : Ops) : String :=
  if ops.functional_chan ≠ ops.align_by_chan then "meanImag" else "meanImg_chan2"

/-- Source lines 109-140: when a second channel exists, re-stream it through
the shift replicator and store its mean image.  Modelled from the spec: the
replicator yields per batch the running mean-so-far, so after the final batch
the yielded image is `(sum of all corrected frames) / nframes`; the
orchestrator then divides that last yield by `k + 1`, the number of
batches. -/
def stage_mean_alt (w : World) (ops : Ops) : Ops :=
  if ops.nchannels > 1 then
    let last_mean := imgDiv (frameSum w.alt_frame (ops.Ly * ops.Lx) ops.nframes)
      (ops.nframes : ℚ)
    { ops with imgStore :=
        (meanImg_key_alt ops,
          imgDiv last_mean (nbatches ops.nframes ops.batch_size : ℚ)) :: ops.imgStore }
  else ops

/-- Source lines 142-159: if no displacement history exists yet, allocate
zero-filled arrays of length `nframes` (and, when nonrigid, of shape
`nframes × nb`), then add the engine's concatenated per-frame offsets into
them elementwise. -/
def stage_offsets (w : World) (ops : Ops) : Ops :=
  let n := ops.nframes
  let nb := ops.nblocks.1 * ops.nblocks.2
  let ops1 :=
    if ops.yoff = none then
      { ops with
        yoff := some (List.replicate n 0)
        xoff := some (List.replicate n 0)
        corrXY := some (List.replicate n 0)
        yoff1 := if ops.nonrigid then some (List.replicate n (List.replicate nb 0)) else ops.yoff1
        xoff1 := if ops.nonrigid then some (List.replicate n (List.replicate nb 0)) else ops.xoff1
        corrXY1 := if ops.nonrigid then some (List.replicate n (List.replicate nb 0)) else ops.corrXY1 }
    else ops
  let ops2 :=
    { ops1 with
      yoff := some (imgAdd (ops1.yoff.getD []) (offHist w.yoff_of n))
      xoff := some (imgAdd (ops1.xoff.getD []) (offHist w.xoff_of n))
      corrXY := some (imgAdd (ops1.corrXY.getD []) (offHist w.corr_of n)) }
  if ops2.nonrigid then
    { ops2 with
      yoff1 := some (matAdd (ops2.yoff1.getD []) (offHist1 w.yoff1_of n))
      xoff1 := some (matAdd (ops2.xoff1.getD []) (offHist1 w.xoff1_of n))
      corrXY1 := some (matAdd (ops2.corrXY1.getD []) (offHist1 w.corr1_of n)) }
  else ops2

/-- Source lines 163-171: the bad-frame mask defaults to all-false of length
`nframes`; when a data path exists and a bad-frames override file is present
under it, the listed indices are set to `true`; an absent file or empty data
path is silently tolerated. -/
def stage_badframes (w : World) (ops : Ops) : Ops :=
  let ops1 := { ops with badframes := List.replicate ops.nframes false }
  if ops1.data_path ≠ [] then
    match w.bad_frames_file with
    | some idxs => { ops1 with badframes := markBad ops1.badframes idxs }
    | none => ops1
  else ops1

/-- Source lines 174-177: compute the valid crop region, then mark the
session bidi-corrected — but only when the run did not read from the raw
stream. -/
def stage_finish (ops : Ops) (raw : Bool) : Ops :=
  let ops1 := compute_crop ops
  if !raw then { ops1 with bidi_corrected := true } else ops1

/-- Observable side effects of one run: whether the reference builder ran,
whether the streaming engine ran, and whether the configuration record was
persisted to `ops_path`. -/
structure Trace where
  computed_reference : Bool := false
  ran_engine : Bool := false
  saved_ops : Bool := false
  deriving Repr, DecidableEq

/-- The exact message of the fatal configuration error raised for movies
shorter than 50 frames (source line 57). -/
def err_too_few : String :=
  "ERROR: the total number of frames should be at least 50 "

/-- Source lines 60-186: the body of a single-session run, entered only after
the frame count passed validation.  Follows the source order: resolve the raw
flag, build or accept the reference, run the batch engine and store the
alignment-channel mean, run the shift replicator and store the
alternate-channel mean, initialize and accumulate the displacement history,
build the bad-frame mask, compute the crop and set the bidi flag. -/
def run_session (w : World) (ops : Ops) (refImg : Option Img) (raw0 : Bool) : Ops × Trace :=
  let raw := resolved_raw w ops raw0
  let p := stage_ref w ops refImg
  let opsA := stage_mean_align w p.1
  let opsB := stage_mean_alt w opsA
  let opsC := stage_offsets w opsB
  let opsD := stage_badframes w opsC
  let opsE := stage_finish opsD raw
  (opsE, { computed_reference := p.2, ran_engine := true, saved_ops := opsE.ops_path.isSome })

/-- Source lines 37-186 (single-dictionary branch): `register_binary` on one
session.  Make the nonrigid block grid, resolve `nframes`, raise the fatal
configuration error when fewer than 50 frames resolve (before the reference is
built, before any correlation work, and before anything is persisted), else
run the session to completion. -/
def register_binary (w : World) (ops0 : Ops) (refImg : Option Img) (raw0 : Bool) :
    Except String Ops × Trace :=
  let ops1 := if ops0.nonrigid then make_blocks ops0 else ops0
  let nf := resolved_nframes w ops1
  if nf < 50 then (.error err_too_few, {})
  else
    let out := run_session w { ops1 with nframes := nf.toNat } refImg raw0
    (.ok out.1, out.2)

/-- Source lines 37-40 (list branch body): each element of the list is
registered by a recursive call `register_binary(op)` that passes no `refImg`
and no `raw`, so the Python defaults `None` / `True` are used; a raised
exception propagates, aborting the remaining elements. -/
def run_each (w : World) : List Ops → Except String (List Ops)
  | [] => .ok []
  | op :: rest =>
    match (register_binary w op none true).1 with
    | .error e => .error e
    | .ok o =>
      match run_each w rest with
      | .error e => .error e
      | .ok os => .ok (o :: os)

/-- Source lines 37-40: the list-dispatch form of `register_binary`.  The
caller's `refImg` and `raw` arguments are received but never forwarded; on
success the returned list holds the processed sessions in their original
order (Python mutates the dictionaries in place and returns the same list
object). -/
def register_binary_list (w : World) (opss : List Ops) (refImg : Option Img) (raw0 : Bool) :
    Except String (List Ops) :=
  run_each w opss

/-- The session state entering the post-validation phase of `register_binary`:
block bookkeeping installed when nonrigid, and the resolved frame count
written into the configuration. -/
def startOps (w : World) (ops0 : Ops) : Ops :=
  { (if ops0.nonrigid then make_blocks ops0 else ops0) with
    nframes := (resolved_nframes w ops0).toNat }

/-- A 60-frame single-pixel session resolved from the registered file's byte
size (120 bytes = 60 frames of one 2-byte pixel). -/
def wA : World :=
  { reg_file_size := 120 }

/-- A plain single-channel session configuration for the 60-frame movie. -/
def opsA : Ops :=
  { Ly := 1, Lx := 1, batch_size := 50, frames_include := -1 }

/-- The configuration returned by a successful run of `register_binary` on
`wA` / `opsA` without a caller-supplied reference. -/
def opsFA : Ops :=
  ((register_binary wA opsA none true).1.toOption).getD {}

/-- The trace of the same run. -/
def trA : Trace :=
  (register_binary wA opsA none true).2

/-- The configuration returned when the caller supplies a reference image. -/
def opsFA6 : Ops :=
  ((register_binary wA opsA (some [(0 : ℚ)]) true).1.toOption).getD {}

/-- The trace of the run with a caller-supplied reference image. -/
def trA6 : Trace :=
  (register_binary wA opsA (some [(0 : ℚ)]) true).2

/-- A session whose explicit frame cap resolves to only 10 frames. -/
def opsB2 : Ops :=
  { nframes := 60, frames_include := 10 }

/-- A world with a bad-frames override file listing frames 3 and 5. -/
def wB : World :=
  { reg_file_size := 120, bad_frames_file := some [3, 5] }

/-- A session with a data path, so the bad-frames override file is consulted. -/
def opsB7 : Ops :=
  { Ly := 1, Lx := 1, batch_size := 50, frames_include := -1, data_path := ["d"] }

/-- The configuration returned by the bad-frames run. -/
def opsFB7 : Ops :=
  ((register_binary wB opsB7 none true).1.toOption).getD {}

/-- The trace of the bad-frames run. -/
def trB7 : Trace :=
  (register_binary wB opsB7 none true).2

/-- A world where the raw stream exists on disk. -/
def wR : World :=
  { raw_file_size := 120, raw_file_exists := true }

/-- A session that keeps and registers from the raw movie. -/
def opsR : Ops :=
  { Ly := 1, Lx := 1, batch_size := 50, frames_include := -1, keep_movie_raw := true }

/-- A nonrigid fresh session over a 1x2 block grid. -/
def wN : World :=
  { reg_file_size := 120, yoff1_of := fun _ => [0, 0], xoff1_of := fun _ => [0, 0],
    corr1_of := fun _ => [0, 0] }

/-- The nonrigid session configuration. -/
def opsN : Ops :=
  { Ly := 1, Lx := 1, batch_size := 50, frames_include := -1, nonrigid := true,
    nblocks := (1, 2) }

/-- The configuration returned by the nonrigid run. -/
def opsFN : Ops :=
  ((register_binary wN opsN none true).1.toOption).getD {}

/-- The trace of the nonrigid run. -/
def trN : Trace :=
  (register_binary wN opsN none true).2

/-- A two-channel session whose functional channel differs from the alignment
channel. -/
def ops10 : Ops :=
  { Ly := 1, Lx := 1, batch_size := 50, frames_include := -1, nchannels := 2,
    functional_chan := 1, align_by_chan := 2 }

/-- The configuration returned by the two-channel run. -/
def opsF10 : Ops :=
  ((register_binary wA ops10 none true).1.toOption).getD {}

/-- The trace of the two-channel run. -/
def tr10 : Trace :=
  (register_binary wA ops10 none true).2

/-- A world whose alternate channel always yields the frame `[1]`. -/
def w3 : World :=
  { alt_frame := fun _ => [1] }

/-- A two-channel 60-frame session streamed in two batches of 50 and 10
frames (the alternate-mean bug needs more than one batch). -/
def ops3 : Ops :=
  { Ly := 1, Lx := 1, batch_size := 50, frames_include := 60, nframes := 60,
    nchannels := 2 }

/-- The configuration returned by the two-batch two-channel run. -/
def opsF3 : Ops :=
  ((register_binary w3 ops3 none true).1.toOption).getD {}

/-- The trace of the two-batch two-channel run. -/
def tr3 : Trace :=
  (register_binary w3 ops3 none true).2

/-- The result of the list-dispatch run used as a witness. -/
def outL : List Ops :=
  (register_binary_list wA [opsA] (some [(0 : ℚ)]) false).toOption.getD []


lemma resolved_nframes_blocks (w : World) (ops0 : Ops) :
    resolved_nframes w (if ops0.nonrigid then make_blocks ops0 else ops0) =
      resolved_nframes w ops0 := by
  split <;> rfl

lemma register_binary_ok_elim (w : World) (ops0 : Ops) (r : Option Img) (b : Bool)
    (opsF : Ops) (tr : Trace)
    (h : register_binary w ops0 r b = (.ok opsF, tr)) :
    50 ≤ resolved_nframes w ops0 ∧
    (opsF, tr) = run_session w
      { (if ops0.nonrigid then make_blocks ops0 else ops0) with
        nframes := (resolved_nframes w ops0).toNat } r b := by
  simp only [register_binary, resolved_nframes_blocks] at h
  split at h
  · simp at h
  · rename_i hlt
    rw [Prod.mk.injEq] at h
    obtain ⟨h1, h2⟩ := h
    rw [Except.ok.injEq] at h1
    refine ⟨by omega, ?_⟩
    rw [← h1, ← h2]

lemma run_session_eq (w : World) (o : Ops) (r : Option Img) (b : Bool) :
    run_session w o r b =
      (stage_finish
        (stage_badframes w (stage_offsets w (stage_mean_alt w (stage_mean_align w
          (stage_ref w o r).1))))
        (resolved_raw w o b),
       { computed_reference := (stage_ref w o r).2, ran_engine := true,
         saved_ops := (stage_finish
           (stage_badframes w (stage_offsets w (stage_mean_alt w (stage_mean_align w
             (stage_ref w o r).1))))
           (resolved_raw w o b)).ops_path.isSome }) := rfl

lemma base_bidiphase (o : Ops) (X : Nat) :
    ({ (if o.nonrigid then make_blocks o else o) with nframes := X } : Ops).bidiphase = o.bidiphase := by
  split <;> rfl

lemma base_bidi_corrected (o : Ops) (X : Nat) :
    ({ (if o.nonrigid then make_blocks o else o) with nframes := X } : Ops).bidi_corrected = o.bidi_corrected := by
  split <;> rfl

lemma base_imgStore (o : Ops) (X : Nat) :
    ({ (if o.nonrigid then make_blocks o else o) with nframes := X } : Ops).imgStore = o.imgStore := by
  split <;> rfl

lemma base_yoff (o : Ops) (X : Nat) :
    ({ (if o.nonrigid then make_blocks o else o) with nframes := X } : Ops).yoff = o.yoff := by
  split <;> rfl

lemma base_xoff (o : Ops) (X : Nat) :
    ({ (if o.nonrigid then make_blocks o else o) with nframes := X } : Ops).xoff = o.xoff := by
  split <;> rfl

lemma base_corrXY (o : Ops) (X : Nat) :
    ({ (if o.nonrigid then make_blocks o else o) with nframes := X } : Ops).corrXY = o.corrXY := by
  split <;> rfl

lemma base_yoff1 (o : Ops) (X : Nat) :
    ({ (if o.nonrigid then make_blocks o else o) with nframes := X } : Ops).yoff1 = o.yoff1 := by
  split <;> rfl

lemma base_xoff1 (o : Ops) (X : Nat) :
    ({ (if o.nonrigid then make_blocks o else o) with nframes := X } : Ops).xoff1 = o.xoff1 := by
  split <;> rfl

lemma base_corrXY1 (o : Ops) (X : Nat) :
    ({ (if o.nonrigid then make_blocks o else o) with nframes := X } : Ops).corrXY1 = o.corrXY1 := by
  split <;> rfl

lemma base_nchannels (o : Ops) (X : Nat) :
    ({ (if o.nonrigid then make_blocks o else o) with nframes := X } : Ops).nchannels = o.nchannels := by
  split <;> rfl

lemma base_functional_chan (o : Ops) (X : Nat) :
    ({ (if o.nonrigid then make_blocks o else o) with nframes := X } : Ops).functional_chan = o.functional_chan := by
  split <;> rfl

lemma base_align_by_chan (o : Ops) (X : Nat) :
    ({ (if o.nonrigid then make_blocks o else o) with nframes := X } : Ops).align_by_chan = o.align_by_chan := by
  split <;> rfl

lemma base_nonrigid (o : Ops) (X : Nat) :
    ({ (if o.nonrigid then make_blocks o else o) with nframes := X } : Ops).nonrigid = o.nonrigid := by
  split <;> rfl

lemma base_nblocks (o : Ops) (X : Nat) :
    ({ (if o.nonrigid then make_blocks o else o) with nframes := X } : Ops).nblocks = o.nblocks := by
  split <;> rfl

lemma base_data_path (o : Ops) (X : Nat) :
    ({ (if o.nonrigid then make_blocks o else o) with nframes := X } : Ops).data_path = o.data_path := by
  split <;> rfl

lemma base_Ly (o : Ops) (X : Nat) :
    ({ (if o.nonrigid then make_blocks o else o) with nframes := X } : Ops).Ly = o.Ly := by
  split <;> rfl

lemma base_Lx (o : Ops) (X : Nat) :
    ({ (if o.nonrigid then make_blocks o else o) with nframes := X } : Ops).Lx = o.Lx := by
  split <;> rfl

lemma base_batch_size (o : Ops) (X : Nat) :
    ({ (if o.nonrigid then make_blocks o else o) with nframes := X } : Ops).batch_size = o.batch_size := by
  split <;> rfl

lemma base_keep_movie_raw (o : Ops) (X : Nat) :
    ({ (if o.nonrigid then make_blocks o else o) with nframes := X } : Ops).keep_movie_raw = o.keep_movie_raw := by
  split <;> rfl

lemma base_ops_path (o : Ops) (X : Nat) :
    ({ (if o.nonrigid then make_blocks o else o) with nframes := X } : Ops).ops_path = o.ops_path := by
  split <;> rfl

lemma base_nframes (o : Ops) (X : Nat) :
    ({ (if o.nonrigid then make_blocks o else o) with nframes := X } : Ops).nframes = X := by
  split <;> rfl

lemma sref_nframes (w : World) (o : Ops) (r : Option Img) :
    ((stage_ref w o r).1).nframes = o.nframes := by
  cases r <;> rfl

lemma sref_bidi_corrected (w : World) (o : Ops) (r : Option Img) :
    ((stage_ref w o r).1).bidi_corrected = o.bidi_corrected := by
  cases r <;> rfl

lemma sref_imgStore (w : World) (o : Ops) (r : Option Img) :
    ((stage_ref w o r).1).imgStore = o.imgStore := by
  cases r <;> rfl

lemma sref_yoff (w : World) (o : Ops) (r : Option Img) :
    ((stage_ref w o r).1).yoff = o.yoff := by
  cases r <;> rfl

lemma sref_xoff (w : World) (o : Ops) (r : Option Img) :
    ((stage_ref w o r).1).xoff = o.xoff := by
  cases r <;> rfl

lemma sref_corrXY (w : World) (o : Ops) (r : Option Img) :
    ((stage_ref w o r).1).corrXY = o.corrXY := by
  cases r <;> rfl

lemma sref_yoff1 (w : World) (o : Ops) (r : Option Img) :
    ((stage_ref w o r).1).yoff1 = o.yoff1 := by
  cases r <;> rfl

lemma sref_xoff1 (w : World) (o : Ops) (r : Option Img) :
    ((stage_ref w o r).1).xoff1 = o.xoff1 := by
  cases r <;> rfl

lemma sref_corrXY1 (w : World) (o : Ops) (r : Option Img) :
    ((stage_ref w o r).1).corrXY1 = o.corrXY1 := by
  cases r <;> rfl

lemma sref_badframes (w : World) (o : Ops) (r : Option Img) :
    ((stage_ref w o r).1).badframes = o.badframes := by
  cases r <;> rfl

lemma sref_nchannels (w : World) (o : Ops) (r : Option Img) :
    ((stage_ref w o r).1).nchannels = o.nchannels := by
  cases r <;> rfl

lemma sref_functional_chan (w : World) (o : Ops) (r : Option Img) :
    ((stage_ref w o r).1).functional_chan = o.functional_chan := by
  cases r <;> rfl

lemma sref_align_by_chan (w : World) (o : Ops) (r : Option Img) :
    ((stage_ref w o r).1).align_by_chan = o.align_by_chan := by
  cases r <;> rfl

lemma sref_nonrigid (w : World) (o : Ops) (r : Option Img) :
    ((stage_ref w o r).1).nonrigid = o.nonrigid := by
  cases r <;> rfl

lemma sref_nblocks (w : World) (o : Ops) (r : Option Img) :
    ((stage_ref w o r).1).nblocks = o.nblocks := by
  cases r <;> rfl

lemma sref_data_path (w : World) (o : Ops) (r : Option Img) :
    ((stage_ref w o r).1).data_path = o.data_path := by
  cases r <;> rfl

lemma sref_Ly (w : World) (o : Ops) (r : Option Img) :
    ((stage_ref w o r).1).Ly = o.Ly := by
  cases r <;> rfl

lemma sref_Lx (w : World) (o : Ops) (r : Option Img) :
    ((stage_ref w o r).1).Lx = o.Lx := by
  cases r <;> rfl

lemma sref_batch_size (w : World) (o : Ops) (r : Option Img) :
    ((stage_ref w o r).1).batch_size = o.batch_size := by
  cases r <;> rfl

lemma sref_ops_path (w : World) (o : Ops) (r : Option Img) :
    ((stage_ref w o r).1).ops_path = o.ops_path := by
  cases r <;> rfl

lemma sref_bidiphase_some (w : World) (o : Ops) (img : Img) :
    ((stage_ref w o (some img)).1).bidiphase = o.bidiphase := rfl

lemma sref_snd_some (w : World) (o : Ops) (img : Img) :
    (stage_ref w o (some img)).2 = false := rfl

lemma smal_nframes (w : World) (o : Ops) :
    (stage_mean_align w o).nframes = o.nframes := rfl

lemma smal_bidiphase (w : World) (o : Ops) :
    (stage_mean_align w o).bidiphase = o.bidiphase := rfl

lemma smal_bidi_corrected (w : World) (o : Ops) :
    (stage_mean_align w o).bidi_corrected = o.bidi_corrected := rfl

lemma smal_yoff (w : World) (o : Ops) :
    (stage_mean_align w o).yoff = o.yoff := rfl

lemma smal_xoff (w : World) (o : Ops) :
    (stage_mean_align w o).xoff = o.xoff := rfl

lemma smal_corrXY (w : World) (o : Ops) :
    (stage_mean_align w o).corrXY = o.corrXY := rfl

lemma smal_yoff1 (w : World) (o : Ops) :
    (stage_mean_align w o).yoff1 = o.yoff1 := rfl

lemma smal_xoff1 (w : World) (o : Ops) :
    (stage_mean_align w o).xoff1 = o.xoff1 := rfl

lemma smal_corrXY1 (w : World) (o : Ops) :
    (stage_mean_align w o).corrXY1 = o.corrXY1 := rfl

lemma smal_badframes (w : World) (o : Ops) :
    (stage_mean_align w o).badframes = o.badframes := rfl

lemma smal_nchannels (w : World) (o : Ops) :
    (stage_mean_align w o).nchannels = o.nchannels := rfl

lemma smal_functional_chan (w : World) (o : Ops) :
    (stage_mean_align w o).functional_chan = o.functional_chan := rfl

lemma smal_align_by_chan (w : World) (o : Ops) :
    (stage_mean_align w o).align_by_chan = o.align_by_chan := rfl

lemma smal_nonrigid (w : World) (o : Ops) :
    (stage_mean_align w o).nonrigid = o.nonrigid := rfl

lemma smal_nblocks (w : World) (o : Ops) :
    (stage_mean_align w o).nblocks = o.nblocks := rfl

lemma smal_data_path (w : World) (o : Ops) :
    (stage_mean_align w o).data_path = o.data_path := rfl

lemma smal_Ly (w : World) (o : Ops) :
    (stage_mean_align w o).Ly = o.Ly := rfl

lemma smal_Lx (w : World) (o : Ops) :
    (stage_mean_align w o).Lx = o.Lx := rfl

lemma smal_batch_size (w : World) (o : Ops) :
    (stage_mean_align w o).batch_size = o.batch_size := rfl

lemma smal_ops_path (w : World) (o : Ops) :
    (stage_mean_align w o).ops_path = o.ops_path := rfl

lemma smal_imgStore (w : World) (o : Ops) :
    (stage_mean_align w o).imgStore =
      (mean_img_key o,
        imgDiv (frameSum w.aligned_frame (o.Ly * o.Lx) o.nframes) (o.nframes : ℚ)) ::
        o.imgStore := rfl

lemma smalt_nframes (w : World) (o : Ops) :
    (stage_mean_alt w o).nframes = o.nframes := by
  simp only [stage_mean_alt]
  repeat' split
  all_goals rfl

lemma smalt_bidiphase (w : World) (o : Ops) :
    (stage_mean_alt w o).bidiphase = o.bidiphase := by
  simp only [stage_mean_alt]
  repeat' split
  all_goals rfl

lemma smalt_bidi_corrected (w : World) (o : Ops) :
    (stage_mean_alt w o).bidi_corrected = o.bidi_corrected := by
  simp only [stage_mean_alt]
  repeat' split
  all_goals rfl

lemma smalt_yoff (w : World) (o : Ops) :
    (stage_mean_alt w o).yoff = o.yoff := by
  simp only [stage_mean_alt]
  repeat' split
  all_goals rfl

lemma smalt_xoff (w : World) (o : Ops) :
    (stage_mean_alt w o).xoff = o.xoff := by
  simp only [stage_mean_alt]
  repeat' split
  all_goals rfl

lemma smalt_corrXY (w : World) (o : Ops) :
    (stage_mean_alt w o).corrXY = o.corrXY := by
  simp only [stage_mean_alt]
  repeat' split
  all_goals rfl

lemma smalt_yoff1 (w : World) (o : Ops) :
    (stage_mean_alt w o).yoff1 = o.yoff1 := by
  simp only [stage_mean_alt]
  repeat' split
  all_goals rfl

lemma smalt_xoff1 (w : World) (o : Ops) :
    (stage_mean_alt w o).xoff1 = o.xoff1 := by
  simp only [stage_mean_alt]
  repeat' split
  all_goals rfl

lemma smalt_corrXY1 (w : World) (o : Ops) :
    (stage_mean_alt w o).corrXY1 = o.corrXY1 := by
  simp only [stage_mean_alt]
  repeat' split
  all_goals rfl

lemma smalt_badframes (w : World) (o : Ops) :
    (stage_mean_alt w o).badframes = o.badframes := by
  simp only [stage_mean_alt]
  repeat' split
  all_goals rfl

lemma smalt_nchannels (w : World) (o : Ops) :
    (stage_mean_alt w o).nchannels = o.nchannels := by
  simp only [stage_mean_alt]
  repeat' split
  all_goals rfl

lemma smalt_functional_chan (w : World) (o : Ops) :
    (stage_mean_alt w o).functional_chan = o.functional_chan := by
  simp only [stage_mean_alt]
  repeat' split
  all_goals rfl

lemma smalt_align_by_chan (w : World) (o : Ops) :
    (stage_mean_alt w o).align_by_chan = o.align_by_chan := by
  simp only [stage_mean_alt]
  repeat' split
  all_goals rfl

lemma smalt_nonrigid (w : World) (o : Ops) :
    (stage_mean_alt w o).nonrigid = o.nonrigid := by
  simp only [stage_mean_alt]
  repeat' split
  all_goals rfl

lemma smalt_nblocks (w : World) (o : Ops) :
    (stage_mean_alt w o).nblocks = o.nblocks := by
  simp only [stage_mean_alt]
  repeat' split
  all_goals rfl

lemma smalt_data_path (w : World) (o : Ops) :
    (stage_mean_alt w o).data_path = o.data_path := by
  simp only [stage_mean_alt]
  repeat' split
  all_goals rfl

lemma smalt_Ly (w : World) (o : Ops) :
    (stage_mean_alt w o).Ly = o.Ly := by
  simp only [stage_mean_alt]
  repeat' split
  all_goals rfl

lemma smalt_Lx (w : World) (o : Ops) :
    (stage_mean_alt w o).Lx = o.Lx := by
  simp only [stage_mean_alt]
  repeat' split
  all_goals rfl

lemma smalt_batch_size (w : World) (o : Ops) :
    (stage_mean_alt w o).batch_size = o.batch_size := by
  simp only [stage_mean_alt]
  repeat' split
  all_goals rfl

lemma smalt_ops_path (w : World) (o : Ops) :
    (stage_mean_alt w o).ops_path = o.ops_path := by
  simp only [stage_mean_alt]
  repeat' split
  all_goals rfl

lemma smalt_imgStore (w : World) (o : Ops) :
    (stage_mean_alt w o).imgStore =
      if o.nchannels > 1 then
        (meanImg_key_alt o,
          imgDiv (imgDiv (frameSum w.alt_frame (o.Ly * o.Lx) o.nframes) (o.nframes : ℚ))
            (nbatches o.nframes o.batch_size : ℚ)) :: o.imgStore
      else o.imgStore := by
  simp only [stage_mean_alt]
  repeat' split
  all_goals rfl

lemma soff_nframes (w : World) (o : Ops) :
    (stage_offsets w o).nframes = o.nframes := by
  simp only [stage_offsets]
  repeat' split
  all_goals rfl

lemma soff_bidiphase (w : World) (o : Ops) :
    (stage_offsets w o).bidiphase = o.bidiphase := by
  simp only [stage_offsets]
  repeat' split
  all_goals rfl

lemma soff_bidi_corrected (w : World) (o : Ops) :
    (stage_offsets w o).bidi_corrected = o.bidi_corrected := by
  simp only [stage_offsets]
  repeat' split
  all_goals rfl

lemma soff_imgStore (w : World) (o : Ops) :
    (stage_offsets w o).imgStore = o.imgStore := by
  simp only [stage_offsets]
  repeat' split
  all_goals rfl

lemma soff_badframes (w : World) (o : Ops) :
    (stage_offsets w o).badframes = o.badframes := by
  simp only [stage_offsets]
  repeat' split
  all_goals rfl

lemma soff_nchannels (w : World) (o : Ops) :
    (stage_offsets w o).nchannels = o.nchannels := by
  simp only [stage_offsets]
  repeat' split
  all_goals rfl

lemma soff_functional_chan (w : World) (o : Ops) :
    (stage_offsets w o).functional_chan = o.functional_chan := by
  simp only [stage_offsets]
  repeat' split
  all_goals rfl

lemma soff_align_by_chan (w : World) (o : Ops) :
    (stage_offsets w o).align_by_chan = o.align_by_chan := by
  simp only [stage_offsets]
  repeat' split
  all_goals rfl

lemma soff_nonrigid (w : World) (o : Ops) :
    (stage_offsets w o).nonrigid = o.nonrigid := by
  simp only [stage_offsets]
  repeat' split
  all_goals rfl

lemma soff_nblocks (w : World) (o : Ops) :
    (stage_offsets w o).nblocks = o.nblocks := by
  simp only [stage_offsets]
  repeat' split
  all_goals rfl

lemma soff_data_path (w : World) (o : Ops) :
    (stage_offsets w o).data_path = o.data_path := by
  simp only [stage_offsets]
  repeat' split
  all_goals rfl

lemma soff_Ly (w : World) (o : Ops) :
    (stage_offsets w o).Ly = o.Ly := by
  simp only [stage_offsets]
  repeat' split
  all_goals rfl

lemma soff_Lx (w : World) (o : Ops) :
    (stage_offsets w o).Lx = o.Lx := by
  simp only [stage_offsets]
  repeat' split
  all_goals rfl

lemma soff_batch_size (w : World) (o : Ops) :
    (stage_offsets w o).batch_size = o.batch_size := by
  simp only [stage_offsets]
  repeat' split
  all_goals rfl

lemma soff_ops_path (w : World) (o : Ops) :
    (stage_offsets w o).ops_path = o.ops_path := by
  simp only [stage_offsets]
  repeat' split
  all_goals rfl

lemma sbad_nframes (w : World) (o : Ops) :
    (stage_badframes w o).nframes = o.nframes := by
  simp only [stage_badframes]
  repeat' split
  all_goals rfl

lemma sbad_bidiphase (w : World) (o : Ops) :
    (stage_badframes w o).bidiphase = o.bidiphase := by
  simp only [stage_badframes]
  repeat' split
  all_goals rfl

lemma sbad_bidi_corrected (w : World) (o : Ops) :
    (stage_badframes w o).bidi_corrected = o.bidi_corrected := by
  simp only [stage_badframes]
  repeat' split
  all_goals rfl

lemma sbad_imgStore (w : World) (o : Ops) :
    (stage_badframes w o).imgStore = o.imgStore := by
  simp only [stage_badframes]
  repeat' split
  all_goals rfl

lemma sbad_yoff (w : World) (o : Ops) :
    (stage_badframes w o).yoff = o.yoff := by
  simp only [stage_badframes]
  repeat' split
  all_goals rfl

lemma sbad_xoff (w : World) (o : Ops) :
    (stage_badframes w o).xoff = o.xoff := by
  simp only [stage_badframes]
  repeat' split
  all_goals rfl

lemma sbad_corrXY (w : World) (o : Ops) :
    (stage_badframes w o).corrXY = o.corrXY := by
  simp only [stage_badframes]
  repeat' split
  all_goals rfl

lemma sbad_yoff1 (w : World) (o : Ops) :
    (stage_badframes w o).yoff1 = o.yoff1 := by
  simp only [stage_badframes]
  repeat' split
  all_goals rfl

lemma sbad_xoff1 (w : World) (o : Ops) :
    (stage_badframes w o).xoff1 = o.xoff1 := by
  simp only [stage_badframes]
  repeat' split
  all_goals rfl

lemma sbad_corrXY1 (w : World) (o : Ops) :
    (stage_badframes w o).corrXY1 = o.corrXY1 := by
  simp only [stage_badframes]
  repeat' split
  all_goals rfl

lemma sbad_nchannels (w : World) (o : Ops) :
    (stage_badframes w o).nchannels = o.nchannels := by
  simp only [stage_badframes]
  repeat' split
  all_goals rfl

lemma sbad_functional_chan (w : World) (o : Ops) :
    (stage_badframes w o).functional_chan = o.functional_chan := by
  simp only [stage_badframes]
  repeat' split
  all_goals rfl

lemma sbad_align_by_chan (w : World) (o : Ops) :
    (stage_badframes w o).align_by_chan = o.align_by_chan := by
  simp only [stage_badframes]
  repeat' split
  all_goals rfl

lemma sbad_nonrigid (w : World) (o : Ops) :
    (stage_badframes w o).nonrigid = o.nonrigid := by
  simp only [stage_badframes]
  repeat' split
  all_goals rfl

lemma sbad_nblocks (w : World) (o : Ops) :
    (stage_badframes w o).nblocks = o.nblocks := by
  simp only [stage_badframes]
  repeat' split
  all_goals rfl

lemma sbad_data_path (w : World) (o : Ops) :
    (stage_badframes w o).data_path = o.data_path := by
  simp only [stage_badframes]
  repeat' split
  all_goals rfl

lemma sbad_Ly (w : World) (o : Ops) :
    (stage_badframes w o).Ly = o.Ly := by
  simp only [stage_badframes]
  repeat' split
  all_goals rfl

lemma sbad_Lx (w : World) (o : Ops) :
    (stage_badframes w o).Lx = o.Lx := by
  simp only [stage_badframes]
  repeat' split
  all_goals rfl

lemma sbad_batch_size (w : World) (o : Ops) :
    (stage_badframes w o).batch_size = o.batch_size := by
  simp only [stage_badframes]
  repeat' split
  all_goals rfl

lemma sbad_ops_path (w : World) (o : Ops) :
    (stage_badframes w o).ops_path = o.ops_path := by
  simp only [stage_badframes]
  repeat' split
  all_goals rfl

lemma sbad_badframes (w : World) (o : Ops) :
    (stage_badframes w o).badframes =
      markBad (List.replicate o.nframes false)
        (if o.data_path = [] then [] else (w.bad_frames_file).getD []) := by
  simp only [stage_badframes]
  by_cases hdp : o.data_path = []
  · simp [hdp, markBad]
  · simp only [hdp, ne_eq, not_false_iff, if_true, if_neg hdp]
    cases hbf : w.bad_frames_file <;> simp [markBad]

lemma sfin_nframes (o : Ops) (raw : Bool) :
    (stage_finish o raw).nframes = o.nframes := by
  simp only [stage_finish, compute_crop]
  repeat' split
  all_goals rfl

lemma sfin_bidiphase (o : Ops) (raw : Bool) :
    (stage_finish o raw).bidiphase = o.bidiphase := by
  simp only [stage_finish, compute_crop]
  repeat' split
  all_goals rfl

lemma sfin_imgStore (o : Ops) (raw : Bool) :
    (stage_finish o raw).imgStore = o.imgStore := by
  simp only [stage_finish, compute_crop]
  repeat' split
  all_goals rfl

lemma sfin_yoff (o : Ops) (raw : Bool) :
    (stage_finish o raw).yoff = o.yoff := by
  simp only [stage_finish, compute_crop]
  repeat' split
  all_goals rfl

lemma sfin_xoff (o : Ops) (raw : Bool) :
    (stage_finish o raw).xoff = o.xoff := by
  simp only [stage_finish, compute_crop]
  repeat' split
  all_goals rfl

lemma sfin_corrXY (o : Ops) (raw : Bool) :
    (stage_finish o raw).corrXY = o.corrXY := by
  simp only [stage_finish, compute_crop]
  repeat' split
  all_goals rfl

lemma sfin_yoff1 (o : Ops) (raw : Bool) :
    (stage_finish o raw).yoff1 = o.yoff1 := by
  simp only [stage_finish, compute_crop]
  repeat' split
  all_goals rfl

lemma sfin_xoff1 (o : Ops) (raw : Bool) :
    (stage_finish o raw).xoff1 = o.xoff1 := by
  simp only [stage_finish, compute_crop]
  repeat' split
  all_goals rfl

lemma sfin_corrXY1 (o : Ops) (raw : Bool) :
    (stage_finish o raw).corrXY1 = o.corrXY1 := by
  simp only [stage_finish, compute_crop]
  repeat' split
  all_goals rfl

lemma sfin_badframes (o : Ops) (raw : Bool) :
    (stage_finish o raw).badframes = o.badframes := by
  simp only [stage_finish, compute_crop]
  repeat' split
  all_goals rfl

lemma sfin_nchannels (o : Ops) (raw : Bool) :
    (stage_finish o raw).nchannels = o.nchannels := by
  simp only [stage_finish, compute_crop]
  repeat' split
  all_goals rfl

lemma sfin_functional_chan (o : Ops) (raw : Bool) :
    (stage_finish o raw).functional_chan = o.functional_chan := by
  simp only [stage_finish, compute_crop]
  repeat' split
  all_goals rfl

lemma sfin_align_by_chan (o : Ops) (raw : Bool) :
    (stage_finish o raw).align_by_chan = o.align_by_chan := by
  simp only [stage_finish, compute_crop]
  repeat' split
  all_goals rfl

lemma sfin_nonrigid (o : Ops) (raw : Bool) :
    (stage_finish o raw).nonrigid = o.nonrigid := by
  simp only [stage_finish, compute_crop]
  repeat' split
  all_goals rfl

lemma sfin_nblocks (o : Ops) (raw : Bool) :
    (stage_finish o raw).nblocks = o.nblocks := by
  simp only [stage_finish, compute_crop]
  repeat' split
  all_goals rfl

lemma sfin_data_path (o : Ops) (raw : Bool) :
    (stage_finish o raw).data_path = o.data_path := by
  simp only [stage_finish, compute_crop]
  repeat' split
  all_goals rfl

lemma sfin_Ly (o : Ops) (raw : Bool) :
    (stage_finish o raw).Ly = o.Ly := by
  simp only [stage_finish, compute_crop]
  repeat' split
  all_goals rfl

lemma sfin_Lx (o : Ops) (raw : Bool) :
    (stage_finish o raw).Lx = o.Lx := by
  simp only [stage_finish, compute_crop]
  repeat' split
  all_goals rfl

lemma sfin_batch_size (o : Ops) (raw : Bool) :
    (stage_finish o raw).batch_size = o.batch_size := by
  simp only [stage_finish, compute_crop]
  repeat' split
  all_goals rfl

lemma sfin_ops_path (o : Ops) (raw : Bool) :
    (stage_finish o raw).ops_path = o.ops_path := by
  simp only [stage_finish, compute_crop]
  repeat' split
  all_goals rfl

lemma sfin_bidi_corrected (o : Ops) (raw : Bool) :
    (stage_finish o raw).bidi_corrected = if raw then o.bidi_corrected else true := by
  simp only [stage_finish, compute_crop]
  cases raw <;> simp


lemma run_session_nframes (w : World) (o : Ops) (r : Option Img) (b : Bool) :
    (run_session w o r b).1.nframes = o.nframes := by
  rw [run_session_eq]
  simp only [sfin_nframes, sbad_nframes, soff_nframes, smalt_nframes, smal_nframes, sref_nframes]


lemma offHist_length (f : Nat → ℚ) (n : Nat) : (offHist f n).length = n := by
  simp [offHist]

lemma offHist1_length (f : Nat → List ℚ) (n : Nat) : (offHist1 f n).length = n := by
  simp [offHist1]

lemma offHist_getElem (f : Nat → ℚ) (n i : Nat) (hi : i < n) :
    (offHist f n)[i]? = some (f i) := by
  simp [offHist, List.getElem?_map, List.getElem?_range hi]

lemma offHist1_getElem (f : Nat → List ℚ) (n i : Nat) (hi : i < n) :
    (offHist1 f n)[i]? = some (f i) := by
  simp [offHist1, List.getElem?_map, List.getElem?_range hi]

lemma imgAdd_zeros (l : List ℚ) : imgAdd (List.replicate l.length 0) l = l := by
  induction l with
  | nil => rfl
  | cons a t ih =>
    simp only [List.length_cons, List.replicate_succ, imgAdd, List.zipWith_cons_cons, zero_add]
    simp only [imgAdd] at ih
    rw [ih]

lemma imgAdd_zeros_n (n : Nat) (l : List ℚ) (hl : l.length = n) :
    imgAdd (List.replicate n 0) l = l := by
  subst hl; exact imgAdd_zeros l

lemma matAdd_zeros (nb : Nat) (L : List (List ℚ)) (hrows : ∀ r ∈ L, r.length = nb) :
    matAdd (List.replicate L.length (List.replicate nb 0)) L = L := by
  induction L with
  | nil => rfl
  | cons a t ih =>
    simp only [List.length_cons, List.replicate_succ, matAdd, List.zipWith_cons_cons]
    simp only [matAdd] at ih
    rw [ih (fun r hr => hrows r (List.mem_cons_of_mem a hr)),
      imgAdd_zeros_n nb a (hrows a (List.mem_cons_self a t))]

lemma matAdd_zeros_n (n nb : Nat) (L : List (List ℚ)) (hL : L.length = n)
    (hrows : ∀ r ∈ L, r.length = nb) :
    matAdd (List.replicate n (List.replicate nb 0)) L = L := by
  subst hL; exact matAdd_zeros nb L hrows

lemma markBad_length (bf : List Bool) (idxs : List Nat) :
    (markBad bf idxs).length = bf.length := by
  induction idxs generalizing bf with
  | nil => rfl
  | cons i t ih =>
    simp only [markBad, List.foldl_cons]
    simp only [markBad] at ih
    rw [ih, List.length_set]

lemma markBad_getElem (bf : List Bool) (idxs : List Nat) (j : Nat) (hj : j < bf.length) :
    (markBad bf idxs)[j]? = some ((bf.getD j false) || decide (j ∈ idxs)) := by
  induction idxs generalizing bf with
  | nil =>
    simp [markBad, List.getD, List.getElem?_eq_getElem hj]
  | cons i t ih =>
    simp only [markBad, List.foldl_cons]
    simp only [markBad] at ih
    rw [ih (bf.set i true) (by simpa using hj)]
    by_cases hij : i = j
    · subst hij
      simp [List.getD, List.getElem?_set, hj]
    · simp [List.getD, List.getElem?_set, hij, List.mem_cons, Ne.symm hij]

lemma frameSum_succ (f : Nat → Img) (sz n : Nat) :
    frameSum f sz (n + 1) = imgAdd (frameSum f sz n) (f n) := by
  simp [frameSum, List.range_succ]

lemma frameSum_const_one (c : ℚ) (n : Nat) :
    frameSum (fun _ => [c]) 1 n = [(n : ℚ) * c] := by
  induction n with
  | zero => simp [frameSum, imgZero]
  | succ n ih =>
    rw [frameSum_succ, ih]
    simp only [imgAdd, List.zipWith_cons_cons, List.zipWith_nil, List.cons.injEq, and_true]
    push_cast
    ring


lemma startOps_eq (w : World) (ops0 : Ops) :
    startOps w ops0 =
      { (if ops0.nonrigid then make_blocks ops0 else ops0) with
        nframes := (resolved_nframes w ops0).toNat } := rfl

lemma register_binary_ok_start (w : World) (ops0 : Ops) (r : Option Img) (b : Bool)
    (opsF : Ops) (tr : Trace)
    (h : register_binary w ops0 r b = (.ok opsF, tr)) :
    50 ≤ resolved_nframes w ops0 ∧ (opsF, tr) = run_session w (startOps w ops0) r b := by
  obtain ⟨h50, hrun⟩ := register_binary_ok_elim w ops0 r b opsF tr h
  exact ⟨h50, by rw [hrun]; rfl⟩

lemma start_nframes (w : World) (o : Ops) :
    (startOps w o).nframes = (resolved_nframes w o).toNat := rfl

lemma final_nframes (w : World) (ops0 : Ops) (r : Option Img) (b : Bool)
    (opsF : Ops) (tr : Trace)
    (h : register_binary w ops0 r b = (.ok opsF, tr)) :
    opsF.nframes = (resolved_nframes w ops0).toNat := by
  obtain ⟨h50, hrun⟩ := register_binary_ok_start w ops0 r b opsF tr h
  have hF : opsF = (run_session w (startOps w ops0) r b).1 := congrArg Prod.fst hrun
  rw [hF, run_session_nframes, start_nframes]

lemma start_bidiphase (w : World) (o : Ops) : (startOps w o).bidiphase = o.bidiphase := base_bidiphase o _

lemma start_bidi_corrected (w : World) (o : Ops) : (startOps w o).bidi_corrected = o.bidi_corrected := base_bidi_corrected o _

lemma start_imgStore (w : World) (o : Ops) : (startOps w o).imgStore = o.imgStore := base_imgStore o _

lemma start_yoff (w : World) (o : Ops) : (startOps w o).yoff = o.yoff := base_yoff o _

lemma start_xoff (w : World) (o : Ops) : (startOps w o).xoff = o.xoff := base_xoff o _

lemma start_corrXY (w : World) (o : Ops) : (startOps w o).corrXY = o.corrXY := base_corrXY o _

lemma start_yoff1 (w : World) (o : Ops) : (startOps w o).yoff1 = o.yoff1 := base_yoff1 o _

lemma start_xoff1 (w : World) (o : Ops) : (startOps w o).xoff1 = o.xoff1 := base_xoff1 o _

lemma start_corrXY1 (w : World) (o : Ops) : (startOps w o).corrXY1 = o.corrXY1 := base_corrXY1 o _

lemma start_nchannels (w : World) (o : Ops) : (startOps w o).nchannels = o.nchannels := base_nchannels o _

lemma start_functional_chan (w : World) (o : Ops) : (startOps w o).functional_chan = o.functional_chan := base_functional_chan o _

lemma start_align_by_chan (w : World) (o : Ops) : (startOps w o).align_by_chan = o.align_by_chan := base_align_by_chan o _

lemma start_nonrigid (w : World) (o : Ops) : (startOps w o).nonrigid = o.nonrigid := base_nonrigid o _

lemma start_nblocks (w : World) (o : Ops) : (startOps w o).nblocks = o.nblocks := base_nblocks o _

lemma start_data_path (w : World) (o : Ops) : (startOps w o).data_path = o.data_path := base_data_path o _

lemma start_Ly (w : World) (o : Ops) : (startOps w o).Ly = o.Ly := base_Ly o _

lemma start_Lx (w : World) (o : Ops) : (startOps w o).Lx = o.Lx := base_Lx o _

lemma start_batch_size (w : World) (o : Ops) : (startOps w o).batch_size = o.batch_size := base_batch_size o _

lemma start_keep_movie_raw (w : World) (o : Ops) : (startOps w o).keep_movie_raw = o.keep_movie_raw := base_keep_movie_raw o _

lemma start_ops_path (w : World) (o : Ops) : (startOps w o).ops_path = o.ops_path := base_ops_path o _

lemma resolved_raw_start (w : World) (o : Ops) (b : Bool) :
    resolved_raw w (startOps w o) b = resolved_raw w o b := by
  simp only [resolved_raw, start_keep_movie_raw]

lemma final_bidi_corrected (w : World) (ops0 : Ops) (r : Option Img) (b : Bool)
    (opsF : Ops) (tr : Trace)
    (h : register_binary w ops0 r b = (.ok opsF, tr)) :
    opsF.bidi_corrected =
      if resolved_raw w ops0 b then ops0.bidi_corrected else true := by
  obtain ⟨h50, hrun⟩ := register_binary_ok_start w ops0 r b opsF tr h
  have hF : opsF = (run_session w (startOps w ops0) r b).1 := congrArg Prod.fst hrun
  rw [hF, run_session_eq]
  simp only [sfin_bidi_corrected, sbad_bidi_corrected, soff_bidi_corrected,
    smalt_bidi_corrected, smal_bidi_corrected, sref_bidi_corrected, start_bidi_corrected,
    resolved_raw_start]

lemma final_bidiphase_some (w : World) (ops0 : Ops) (img : Img) (b : Bool)
    (opsF : Ops) (tr : Trace)
    (h : register_binary w ops0 (some img) b = (.ok opsF, tr)) :
    opsF.bidiphase = ops0.bidiphase := by
  obtain ⟨h50, hrun⟩ := register_binary_ok_start w ops0 (some img) b opsF tr h
  have hF : opsF = (run_session w (startOps w ops0) (some img) b).1 := congrArg Prod.fst hrun
  rw [hF, run_session_eq]
  simp only [sfin_bidiphase, sbad_bidiphase, soff_bidiphase, smalt_bidiphase,
    smal_bidiphase, sref_bidiphase_some, start_bidiphase]

lemma final_trace_some (w : World) (ops0 : Ops) (img : Img) (b : Bool)
    (opsF : Ops) (tr : Trace)
    (h : register_binary w ops0 (some img) b = (.ok opsF, tr)) :
    tr.computed_reference = false := by
  obtain ⟨h50, hrun⟩ := register_binary_ok_start w ops0 (some img) b opsF tr h
  have hT : tr = (run_session w (startOps w ops0) (some img) b).2 := congrArg Prod.snd hrun
  rw [hT, run_session_eq]
  simp only [sref_snd_some]


lemma mean_img_key_start_chain (w : World) (ops0 : Ops) (r : Option Img) :
    mean_img_key (stage_ref w (startOps w ops0) r).1 = mean_img_key ops0 := by
  simp only [mean_img_key, sref_nchannels, sref_functional_chan, sref_align_by_chan,
    start_nchannels, start_functional_chan, start_align_by_chan]

lemma meanImg_key_alt_chain (w : World) (ops0 : Ops) (r : Option Img) :
    meanImg_key_alt (stage_mean_align w (stage_ref w (startOps w ops0) r).1) =
      meanImg_key_alt ops0 := by
  simp only [meanImg_key_alt, smal_functional_chan, smal_align_by_chan,
    sref_functional_chan, sref_align_by_chan, start_functional_chan, start_align_by_chan]

lemma final_imgStore_multi (w : World) (ops0 : Ops) (r : Option Img) (b : Bool)
    (opsF : Ops) (tr : Trace)
    (h : register_binary w ops0 r b = (.ok opsF, tr))
    (hch : ops0.nchannels > 1) :
    opsF.imgStore =
      (meanImg_key_alt ops0,
        imgDiv
          (imgDiv (frameSum w.alt_frame (ops0.Ly * ops0.Lx) (resolved_nframes w ops0).toNat)
            ((resolved_nframes w ops0).toNat : ℚ))
          (nbatches (resolved_nframes w ops0).toNat ops0.batch_size : ℚ)) ::
      (mean_img_key ops0,
        imgDiv (frameSum w.aligned_frame (ops0.Ly * ops0.Lx) (resolved_nframes w ops0).toNat)
          ((resolved_nframes w ops0).toNat : ℚ)) ::
      ops0.imgStore := by
  obtain ⟨h50, hrun⟩ := register_binary_ok_start w ops0 r b opsF tr h
  have hF : opsF = (run_session w (startOps w ops0) r b).1 := congrArg Prod.fst hrun
  rw [hF, run_session_eq]
  simp only [sfin_imgStore, sbad_imgStore, soff_imgStore, smalt_imgStore, smal_imgStore,
    sref_imgStore, start_imgStore, smal_nchannels, sref_nchannels, start_nchannels,
    smal_Ly, smal_Lx, smal_nframes, smal_batch_size, sref_Ly, sref_Lx, sref_nframes,
    sref_batch_size, start_Ly, start_Lx, start_nframes, start_batch_size,
    mean_img_key_start_chain, meanImg_key_alt_chain]
  rw [if_pos hch]

lemma final_imgStore_single (w : World) (ops0 : Ops) (r : Option Img) (b : Bool)
    (opsF : Ops) (tr : Trace)
    (h : register_binary w ops0 r b = (.ok opsF, tr))
    (hch : ¬ ops0.nchannels > 1) :
    opsF.imgStore =
      (mean_img_key ops0,
        imgDiv (frameSum w.aligned_frame (ops0.Ly * ops0.Lx) (resolved_nframes w ops0).toNat)
          ((resolved_nframes w ops0).toNat : ℚ)) ::
      ops0.imgStore := by
  obtain ⟨h50, hrun⟩ := register_binary_ok_start w ops0 r b opsF tr h
  have hF : opsF = (run_session w (startOps w ops0) r b).1 := congrArg Prod.fst hrun
  rw [hF, run_session_eq]
  simp only [sfin_imgStore, sbad_imgStore, soff_imgStore, smalt_imgStore, smal_imgStore,
    sref_imgStore, start_imgStore, smal_nchannels, sref_nchannels, start_nchannels,
    smal_Ly, smal_Lx, smal_nframes, smal_batch_size, sref_Ly, sref_Lx, sref_nframes,
    sref_batch_size, start_Ly, start_Lx, start_nframes, start_batch_size,
    mean_img_key_start_chain, meanImg_key_alt_chain]
  rw [if_neg hch]

lemma soff_yoff_fresh (w : World) (o : Ops) (hfresh : o.yoff = none) :
    (stage_offsets w o).yoff =
      some (imgAdd (List.replicate o.nframes 0) (offHist w.yoff_of o.nframes)) := by
  simp only [stage_offsets]
  rw [if_pos hfresh]
  repeat' split
  all_goals rfl

lemma soff_xoff_fresh (w : World) (o : Ops) (hfresh : o.yoff = none) :
    (stage_offsets w o).xoff =
      some (imgAdd (List.replicate o.nframes 0) (offHist w.xoff_of o.nframes)) := by
  simp only [stage_offsets]
  rw [if_pos hfresh]
  repeat' split
  all_goals rfl

lemma soff_corrXY_fresh (w : World) (o : Ops) (hfresh : o.yoff = none) :
    (stage_offsets w o).corrXY =
      some (imgAdd (List.replicate o.nframes 0) (offHist w.corr_of o.nframes)) := by
  simp only [stage_offsets]
  rw [if_pos hfresh]
  repeat' split
  all_goals rfl

lemma soff_yoff1_fresh (w : World) (o : Ops) (hfresh : o.yoff = none)
    (hnr : o.nonrigid = true) :
    (stage_offsets w o).yoff1 =
      some (matAdd (List.replicate o.nframes (List.replicate (o.nblocks.1 * o.nblocks.2) 0))
        (offHist1 w.yoff1_of o.nframes)) := by
  simp only [stage_offsets]
  rw [if_pos hfresh]
  simp only [hnr, if_true]
  rfl

lemma soff_xoff1_fresh (w : World) (o : Ops) (hfresh : o.yoff = none)
    (hnr : o.nonrigid = true) :
    (stage_offsets w o).xoff1 =
      some (matAdd (List.replicate o.nframes (List.replicate (o.nblocks.1 * o.nblocks.2) 0))
        (offHist1 w.xoff1_of o.nframes)) := by
  simp only [stage_offsets]
  rw [if_pos hfresh]
  simp only [hnr, if_true]
  rfl

lemma soff_corrXY1_fresh (w : World) (o : Ops) (hfresh : o.yoff = none)
    (hnr : o.nonrigid = true) :
    (stage_offsets w o).corrXY1 =
      some (matAdd (List.replicate o.nframes (List.replicate (o.nblocks.1 * o.nblocks.2) 0))
        (offHist1 w.corr1_of o.nframes)) := by
  simp only [stage_offsets]
  rw [if_pos hfresh]
  simp only [hnr, if_true]
  rfl

lemma chainC_yoff (w : World) (ops0 : Ops) (r : Option Img) (b : Bool) :
    (stage_mean_alt w (stage_mean_align w (stage_ref w (startOps w ops0) r).1)).yoff =
      ops0.yoff := by
  simp only [smalt_yoff, smal_yoff, sref_yoff, start_yoff]

lemma chainC_nonrigid (w : World) (ops0 : Ops) (r : Option Img) (b : Bool) :
    (stage_mean_alt w (stage_mean_align w (stage_ref w (startOps w ops0) r).1)).nonrigid =
      ops0.nonrigid := by
  simp only [smalt_nonrigid, smal_nonrigid, sref_nonrigid, start_nonrigid]

lemma final_yoff_fresh (w : World) (ops0 : Ops) (r : Option Img) (b : Bool)
    (opsF : Ops) (tr : Trace)
    (h : register_binary w ops0 r b = (.ok opsF, tr))
    (hfresh : ops0.yoff = none) :
    opsF.yoff =
      some (imgAdd (List.replicate (resolved_nframes w ops0).toNat 0)
        (offHist w.yoff_of (resolved_nframes w ops0).toNat)) := by
  obtain ⟨h50, hrun⟩ := register_binary_ok_start w ops0 r b opsF tr h
  have hF : opsF = (run_session w (startOps w ops0) r b).1 := congrArg Prod.fst hrun
  rw [hF, run_session_eq]
  simp only [sfin_yoff, sbad_yoff]
  rw [soff_yoff_fresh w _ (by rw [chainC_yoff w ops0 r b]; exact hfresh)]
  simp only [smalt_nframes, smal_nframes, sref_nframes, start_nframes]

lemma final_xoff_fresh (w : World) (ops0 : Ops) (r : Option Img) (b : Bool)
    (opsF : Ops) (tr : Trace)
    (h : register_binary w ops0 r b = (.ok opsF, tr))
    (hfresh : ops0.yoff = none) :
    opsF.xoff =
      some (imgAdd (List.replicate (resolved_nframes w ops0).toNat 0)
        (offHist w.xoff_of (resolved_nframes w ops0).toNat)) := by
  obtain ⟨h50, hrun⟩ := register_binary_ok_start w ops0 r b opsF tr h
  have hF : opsF = (run_session w (startOps w ops0) r b).1 := congrArg Prod.fst hrun
  rw [hF, run_session_eq]
  simp only [sfin_xoff, sbad_xoff]
  rw [soff_xoff_fresh w _ (by rw [chainC_yoff w ops0 r b]; exact hfresh)]
  simp only [smalt_nframes, smal_nframes, sref_nframes, start_nframes]

lemma final_corrXY_fresh (w : World) (ops0 : Ops) (r : Option Img) (b : Bool)
    (opsF : Ops) (tr : Trace)
    (h : register_binary w ops0 r b = (.ok opsF, tr))
    (hfresh : ops0.yoff = none) :
    opsF.corrXY =
      some (imgAdd (List.replicate (resolved_nframes w ops0).toNat 0)
        (offHist w.corr_of (resolved_nframes w ops0).toNat)) := by
  obtain ⟨h50, hrun⟩ := register_binary_ok_start w ops0 r b opsF tr h
  have hF : opsF = (run_session w (startOps w ops0) r b).1 := congrArg Prod.fst hrun
  rw [hF, run_session_eq]
  simp only [sfin_corrXY, sbad_corrXY]
  rw [soff_corrXY_fresh w _ (by rw [chainC_yoff w ops0 r b]; exact hfresh)]
  simp only [smalt_nframes, smal_nframes, sref_nframes, start_nframes]

lemma final_yoff1_fresh (w : World) (ops0 : Ops) (r : Option Img) (b : Bool)
    (opsF : Ops) (tr : Trace)
    (h : register_binary w ops0 r b = (.ok opsF, tr))
    (hfresh : ops0.yoff = none) (hnr : ops0.nonrigid = true) :
    opsF.yoff1 =
      some (matAdd
        (List.replicate (resolved_nframes w ops0).toNat
          (List.replicate (ops0.nblocks.1 * ops0.nblocks.2) 0))
        (offHist1 w.yoff1_of (resolved_nframes w ops0).toNat)) := by
  obtain ⟨h50, hrun⟩ := register_binary_ok_start w ops0 r b opsF tr h
  have hF : opsF = (run_session w (startOps w ops0) r b).1 := congrArg Prod.fst hrun
  rw [hF, run_session_eq]
  simp only [sfin_yoff1, sbad_yoff1]
  rw [soff_yoff1_fresh w _ (by rw [chainC_yoff w ops0 r b]; exact hfresh)
    (by rw [chainC_nonrigid w ops0 r b]; exact hnr)]
  simp only [smalt_nframes, smal_nframes, sref_nframes, start_nframes,
    smalt_nblocks, smal_nblocks, sref_nblocks, start_nblocks]

lemma final_xoff1_fresh (w : World) (ops0 : Ops) (r : Option Img) (b : Bool)
    (opsF : Ops) (tr : Trace)
    (h : register_binary w ops0 r b = (.ok opsF, tr))
    (hfresh : ops0.yoff = none) (hnr : ops0.nonrigid = true) :
    opsF.xoff1 =
      some (matAdd
        (List.replicate (resolved_nframes w ops0).toNat
          (List.replicate (ops0.nblocks.1 * ops0.nblocks.2) 0))
        (offHist1 w.xoff1_of (resolved_nframes w ops0).toNat)) := by
  obtain ⟨h50, hrun⟩ := register_binary_ok_start w ops0 r b opsF tr h
  have hF : opsF = (run_session w (startOps w ops0) r b).1 := congrArg Prod.fst hrun
  rw [hF, run_session_eq]
  simp only [sfin_xoff1, sbad_xoff1]
  rw [soff_xoff1_fresh w _ (by rw [chainC_yoff w ops0 r b]; exact hfresh)
    (by rw [chainC_nonrigid w ops0 r b]; exact hnr)]
  simp only [smalt_nframes, smal_nframes, sref_nframes, start_nframes,
    smalt_nblocks, smal_nblocks, sref_nblocks, start_nblocks]

lemma final_corrXY1_fresh (w : World) (ops0 : Ops) (r : Option Img) (b : Bool)
    (opsF : Ops) (tr : Trace)
    (h : register_binary w ops0 r b = (.ok opsF, tr))
    (hfresh : ops0.yoff = none) (hnr : ops0.nonrigid = true) :
    opsF.corrXY1 =
      some (matAdd
        (List.replicate (resolved_nframes w ops0).toNat
          (List.replicate (ops0.nblocks.1 * ops0.nblocks.2) 0))
        (offHist1 w.corr1_of (resolved_nframes w ops0).toNat)) := by
  obtain ⟨h50, hrun⟩ := register_binary_ok_start w ops0 r b opsF tr h
  have hF : opsF = (run_session w (startOps w ops0) r b).1 := congrArg Prod.fst hrun
  rw [hF, run_session_eq]
  simp only [sfin_corrXY1, sbad_corrXY1]
  rw [soff_corrXY1_fresh w _ (by rw [chainC_yoff w ops0 r b]; exact hfresh)
    (by rw [chainC_nonrigid w ops0 r b]; exact hnr)]
  simp only [smalt_nframes, smal_nframes, sref_nframes, start_nframes,
    smalt_nblocks, smal_nblocks, sref_nblocks, start_nblocks]

lemma final_badframes (w : World) (ops0 : Ops) (r : Option Img) (b : Bool)
    (opsF : Ops) (tr : Trace)
    (h : register_binary w ops0 r b = (.ok opsF, tr)) :
    opsF.badframes =
      markBad (List.replicate (resolved_nframes w ops0).toNat false)
        (if ops0.data_path = [] then [] else (w.bad_frames_file).getD []) := by
  obtain ⟨h50, hrun⟩ := register_binary_ok_start w ops0 r b opsF tr h
  have hF : opsF = (run_session w (startOps w ops0) r b).1 := congrArg Prod.fst hrun
  rw [hF, run_session_eq]
  simp only [sfin_badframes, sbad_badframes, soff_nframes, soff_data_path,
    smalt_nframes, smal_nframes, sref_nframes, start_nframes,
    smalt_data_path, smal_data_path, sref_data_path, start_data_path]


/-- C2: a session whose resolved frame count is below 50 makes
`register_binary` fail with the fatal configuration error before the
reference image is built, before any correlation work runs, and without
persisting anything to `ops_path`. -/
theorem C2_short_movie_fails (w : World) (ops0 : Ops) (r : Option Img) (b : Bool)
    (h : resolved_nframes w ops0 < 50) :
    register_binary w ops0 r b =
      (.error err_too_few,
        { computed_reference := false, ran_engine := false, saved_ops := false }) := by
  simp only [register_binary, resolved_nframes_blocks]
  rw [if_pos h]

/-- C2 witness: a session capped at 10 frames fails as C2 states. -/
theorem C2_short_movie_fails_witness :
    resolved_nframes wA opsB2 < 50 ∧
    register_binary wA opsB2 none true =
      (.error err_too_few,
        { computed_reference := false, ran_engine := false, saved_ops := false }) :=
  ⟨by decide, C2_short_movie_fails wA opsB2 none true (by decide)⟩

/-- C5: on success, the resolved `nframes` stored in the returned
configuration is the minimum of the prior `nframes` and the explicit cap when
`frames_include ≠ -1`, and otherwise the source file's byte size divided by
`2 * Ly * Lx` (two bytes per pixel, floored). -/
theorem C5_nframes_resolution (w : World) (ops0 : Ops) (r : Option Img) (b : Bool)
    (opsF : Ops) (tr : Trace)
    (h : register_binary w ops0 r b = (.ok opsF, tr)) :
    (opsF.nframes : Int) =
      if ops0.frames_include ≠ -1 then min (ops0.nframes : Int) ops0.frames_include
      else ((source_size w ops0 / (2 * ops0.Ly * ops0.Lx) : Nat) : Int) := by
  obtain ⟨h50, _⟩ := register_binary_ok_start w ops0 r b opsF tr h
  rw [final_nframes w ops0 r b opsF tr h, Int.toNat_of_nonneg (by omega)]
  rfl

/-- C5 witness: the 60-frame session resolves its frame count from the
registered file's byte size. -/
theorem C5_nframes_resolution_witness :
    (opsFA.nframes : Int) =
      if opsA.frames_include ≠ -1 then min (opsA.nframes : Int) opsA.frames_include
      else ((source_size wA opsA / (2 * opsA.Ly * opsA.Lx) : Nat) : Int) :=
  C5_nframes_resolution wA opsA none true opsFA trA rfl

/-- C6: when the caller supplies a reference image, the reference builder
(and with it the scan-phase estimation) never runs and the configuration's
`bidiphase` keeps its incoming value. -/
theorem C6_user_refimg_skips (w : World) (ops0 : Ops) (img : Img) (b : Bool)
    (opsF : Ops) (tr : Trace)
    (h : register_binary w ops0 (some img) b = (.ok opsF, tr)) :
    tr.computed_reference = false ∧ opsF.bidiphase = ops0.bidiphase :=
  ⟨final_trace_some w ops0 img b opsF tr h, final_bidiphase_some w ops0 img b opsF tr h⟩

/-- C6 witness: supplying a reference image on the 60-frame session skips
reference construction and keeps `bidiphase`. -/
theorem C6_user_refimg_skips_witness :
    trA6.computed_reference = false ∧ opsFA6.bidiphase = opsA.bidiphase :=
  C6_user_refimg_skips wA opsA [(0 : ℚ)] true opsFA6 trA6 rfl

/-- C8 counterexample: a session that keeps and registers from the raw movie
runs to completion with `bidi_corrected` still `false`, refuting the claim
that every completed run sets the flag. -/
theorem C8_bidi_counterexample :
    (register_binary wR opsR none true).1.toOption.map Ops.bidi_corrected = some false := rfl

/-- C8 amended: a completed run sets `bidi_corrected` to `true` exactly when
the resolved raw flag is false (the run read the already-processed stream);
a raw-stream run leaves the flag unchanged. -/
theorem C8_bidi_amended (w : World) (ops0 : Ops) (r : Option Img) (b : Bool)
    (opsF : Ops) (tr : Trace)
    (h : register_binary w ops0 r b = (.ok opsF, tr)) :
    opsF.bidi_corrected =
      if resolved_raw w ops0 b then ops0.bidi_corrected else true :=
  final_bidi_corrected w ops0 r b opsF tr h

/-- C8 witness: the non-raw 60-frame session completes with the flag set. -/
theorem C8_bidi_amended_witness :
    opsFA.bidi_corrected =
      if resolved_raw wA opsA true then opsA.bidi_corrected else true :=
  C8_bidi_amended wA opsA none true opsFA trA rfl

lemma mean_keys_ne (o o2 : Ops) : (mean_img_key o == meanImg_key_alt o2) = false := by
  unfold mean_img_key meanImg_key_alt
  split_ifs <;> decide

/-- C4: on success, the alignment-channel mean image stored in the returned
configuration equals the running sum image after the final batch divided by
the resolved frame count. -/
theorem C4_align_mean (w : World) (ops0 : Ops) (r : Option Img) (b : Bool)
    (opsF : Ops) (tr : Trace)
    (h : register_binary w ops0 r b = (.ok opsF, tr)) :
    lookupStore opsF (mean_img_key ops0) =
      some (imgDiv (frameSum w.aligned_frame (ops0.Ly * ops0.Lx) opsF.nframes)
        (opsF.nframes : ℚ)) := by
  rw [final_nframes w ops0 r b opsF tr h]
  simp only [lookupStore]
  by_cases hch : ops0.nchannels > 1
  · rw [final_imgStore_multi w ops0 r b opsF tr h hch]
    rw [List.lookup_cons]
    rw [show (mean_img_key ops0 == meanImg_key_alt ops0) = false from mean_keys_ne ops0 ops0]
    rw [List.lookup_cons]
    simp
  · rw [final_imgStore_single w ops0 r b opsF tr h hch]
    rw [List.lookup_cons]
    simp

/-- C4 witness: the 60-frame session stores its alignment mean image as the
final running sum divided by 60. -/
theorem C4_align_mean_witness :
    lookupStore opsFA (mean_img_key opsA) =
      some (imgDiv (frameSum wA.aligned_frame (opsA.Ly * opsA.Lx) opsFA.nframes)
        (opsFA.nframes : ℚ)) :=
  C4_align_mean wA opsA none true opsFA trA rfl

/-- C7: on success, the bad-frame mask has length `nframes`, and entry `j` is
`true` exactly when `j` is listed in the bad-frames override file reachable
through a nonempty data path; with no data path or no file the mask is
all-false.  The in-range hypothesis matches the file contract (out-of-range
indices abort the numpy assignment and are outside the claim). -/
theorem C7_badframes_mask (w : World) (ops0 : Ops) (r : Option Img) (b : Bool)
    (opsF : Ops) (tr : Trace)
    (h : register_binary w ops0 r b = (.ok opsF, tr))
    (hval : ∀ i ∈ (if ops0.data_path = [] then [] else (w.bad_frames_file).getD []),
      i < opsF.nframes) :
    opsF.badframes.length = opsF.nframes ∧
    ∀ j, j < opsF.nframes →
      opsF.badframes[j]? =
        some (decide
          (j ∈ (if ops0.data_path = [] then [] else (w.bad_frames_file).getD []))) := by
  have hN := final_nframes w ops0 r b opsF tr h
  rw [final_badframes w ops0 r b opsF tr h]
  constructor
  · rw [markBad_length, List.length_replicate, hN]
  · intro j hj
    rw [hN] at hj
    rw [markBad_getElem _ _ j (by rw [List.length_replicate]; exact hj)]
    simp [List.getD, List.getElem?_replicate, hj]

/-- C7 witness: with a data path and an override file listing frames 3 and 5,
the 60-frame mask marks exactly those two frames. -/
theorem C7_badframes_mask_witness :
    (∀ i ∈ (if opsB7.data_path = [] then [] else (wB.bad_frames_file).getD []),
      i < opsFB7.nframes) ∧
    (opsFB7.badframes.length = opsFB7.nframes ∧
      ∀ j, j < opsFB7.nframes →
        opsFB7.badframes[j]? =
          some (decide
            (j ∈ (if opsB7.data_path = [] then [] else (wB.bad_frames_file).getD [])))) :=
  ⟨by decide, C7_badframes_mask wB opsB7 none true opsFB7 trB7 rfl (by decide)⟩

/-- C10: on a multi-channel session whose functional channel differs from the
alignment channel, the run stores the alignment-channel mean under
`meanImage_chan2` and the alternate-channel mean under `meanImag`; it writes
no `meanImg` entry and no `meanImg_chan2` entry (the latter key is used only
when the channels coincide). -/
theorem C10_mean_image_keys (w : World) (ops0 : Ops) (r : Option Img) (b : Bool)
    (opsF : Ops) (tr : Trace)
    (h : register_binary w ops0 r b = (.ok opsF, tr))
    (hch : ops0.nchannels > 1)
    (hne : ops0.functional_chan ≠ ops0.align_by_chan) :
    (∃ v1 v2, opsF.imgStore =
      ("meanImag", v2) :: ("meanImage_chan2", v1) :: ops0.imgStore) ∧
    (∀ v : Img, ("meanImg", v) ∈ opsF.imgStore → ("meanImg", v) ∈ ops0.imgStore) ∧
    (∀ v : Img, ("meanImg_chan2", v) ∈ opsF.imgStore →
      ("meanImg_chan2", v) ∈ ops0.imgStore) := by
  have hkeyM : mean_img_key ops0 = "meanImage_chan2" := by
    unfold mean_img_key
    have h1 : (ops0.nchannels == 1) = false := by
      simp only [beq_eq_false_iff_ne, ne_eq]
      omega
    have h2 : (ops0.functional_chan == ops0.align_by_chan) = false := by
      simp [hne]
    rw [h1, h2]
    rfl
  have hkeyA : meanImg_key_alt ops0 = "meanImag" := by
    unfold meanImg_key_alt
    rw [if_pos hne]
  have hst := final_imgStore_multi w ops0 r b opsF tr h hch
  rw [hkeyM, hkeyA] at hst
  refine ⟨⟨_, _, hst⟩, ?_, ?_⟩
  · intro v hv
    rw [hst] at hv
    simp only [List.mem_cons, Prod.mk.injEq] at hv
    rcases hv with ⟨hk, _⟩ | ⟨hk, _⟩ | hv
    · exact absurd hk (by decide)
    · exact absurd hk (by decide)
    · exact hv
  · intro v hv
    rw [hst] at hv
    simp only [List.mem_cons, Prod.mk.injEq] at hv
    rcases hv with ⟨hk, _⟩ | ⟨hk, _⟩ | hv
    · exact absurd hk (by decide)
    · exact absurd hk (by decide)
    · exact hv

/-- C10 witness: the two-channel session with distinct functional and
alignment channels stores exactly the `meanImag` and `meanImage_chan2`
entries. -/
theorem C10_mean_image_keys_witness :
    ops10.nchannels > 1 ∧ ops10.functional_chan ≠ ops10.align_by_chan ∧
    ((∃ v1 v2, opsF10.imgStore =
        ("meanImag", v2) :: ("meanImage_chan2", v1) :: ops10.imgStore) ∧
      (∀ v : Img, ("meanImg", v) ∈ opsF10.imgStore → ("meanImg", v) ∈ ops10.imgStore) ∧
      (∀ v : Img, ("meanImg_chan2", v) ∈ opsF10.imgStore →
        ("meanImg_chan2", v) ∈ ops10.imgStore)) :=
  ⟨by decide, by decide,
    C10_mean_image_keys wA ops10 none true opsF10 tr10 rfl (by decide) (by decide)⟩

lemma run_each_forall2 (w : World) :
    ∀ (l out : List Ops), run_each w l = .ok out →
      List.Forall₂ (fun op o => (register_binary w op none true).1 = .ok o) l out := by
  intro l
  induction l with
  | nil =>
    intro out h
    simp only [run_each] at h
    cases h
    exact List.Forall₂.nil
  | cons op rest ih =>
    intro out h
    simp only [run_each] at h
    split at h
    · exact absurd h (by simp)
    · rename_i o hok
      split at h
      · exact absurd h (by simp)
      · rename_i os hrec
        cases h
        exact List.Forall₂.cons hok (ih os hrec)

/-- C9: the list form of `register_binary` registers every element with the
default arguments (no reference image, `raw = true`) whatever `refImg` and
`raw` the caller supplied, and returns the same sessions, elementwise
processed and in their original order (the embedding's rendering of the
source returning the very same list object of in-place-updated
dictionaries). -/
theorem C9_list_dispatch (w : World) (l : List Ops) (r : Option Img) (b : Bool)
    (out : List Ops)
    (h : register_binary_list w l r b = .ok out) :
    register_binary_list w l r b = register_binary_list w l none true ∧
    List.Forall₂ (fun op o => (register_binary w op none true).1 = .ok o) l out :=
  ⟨rfl, run_each_forall2 w l out h⟩

/-- C9 witness: a one-element list call with a caller-supplied reference and
`raw = false` still runs the element with the defaults. -/
theorem C9_list_dispatch_witness :
    register_binary_list wA [opsA] (some [(0 : ℚ)]) false =
        register_binary_list wA [opsA] none true ∧
    List.Forall₂ (fun op o => (register_binary wA op none true).1 = .ok o) [opsA] outL :=
  C9_list_dispatch wA [opsA] (some [(0 : ℚ)]) false outL rfl

/-- C1: on a fresh valid session, every rigid displacement-history array in
the returned configuration has exactly `nframes` entries and entry `i` is
frame `i`'s own record; when nonrigid, the per-block arrays likewise hold one
row of block records per frame at that frame's index. -/
theorem C1_offset_history (w : World) (ops0 : Ops) (r : Option Img) (b : Bool)
    (opsF : Ops) (tr : Trace)
    (h : register_binary w ops0 r b = (.ok opsF, tr))
    (hfresh : ops0.yoff = none)
    (hny : ∀ i, (w.yoff1_of i).length = ops0.nblocks.1 * ops0.nblocks.2)
    (hnx : ∀ i, (w.xoff1_of i).length = ops0.nblocks.1 * ops0.nblocks.2)
    (hnc : ∀ i, (w.corr1_of i).length = ops0.nblocks.1 * ops0.nblocks.2) :
    (∃ yl xl cl, opsF.yoff = some yl ∧ opsF.xoff = some xl ∧ opsF.corrXY = some cl ∧
      yl.length = opsF.nframes ∧ xl.length = opsF.nframes ∧ cl.length = opsF.nframes ∧
      ∀ i, i < opsF.nframes →
        yl[i]? = some (w.yoff_of i) ∧ xl[i]? = some (w.xoff_of i) ∧
          cl[i]? = some (w.corr_of i)) ∧
    (ops0.nonrigid = true →
      ∃ yl1 xl1 cl1, opsF.yoff1 = some yl1 ∧ opsF.xoff1 = some xl1 ∧
        opsF.corrXY1 = some cl1 ∧
        yl1.length = opsF.nframes ∧ xl1.length = opsF.nframes ∧
        cl1.length = opsF.nframes ∧
        ∀ i, i < opsF.nframes →
          yl1[i]? = some (w.yoff1_of i) ∧ xl1[i]? = some (w.xoff1_of i) ∧
            cl1[i]? = some (w.corr1_of i)) := by
  have hN := final_nframes w ops0 r b opsF tr h
  constructor
  · refine ⟨offHist w.yoff_of opsF.nframes, offHist w.xoff_of opsF.nframes,
      offHist w.corr_of opsF.nframes, ?_, ?_, ?_, ?_, ?_, ?_, ?_⟩
    · rw [final_yoff_fresh w ops0 r b opsF tr h hfresh, hN,
        imgAdd_zeros_n _ _ (offHist_length _ _)]
    · rw [final_xoff_fresh w ops0 r b opsF tr h hfresh, hN,
        imgAdd_zeros_n _ _ (offHist_length _ _)]
    · rw [final_corrXY_fresh w ops0 r b opsF tr h hfresh, hN,
        imgAdd_zeros_n _ _ (offHist_length _ _)]
    · exact offHist_length _ _
    · exact offHist_length _ _
    · exact offHist_length _ _
    · intro i hi
      exact ⟨offHist_getElem _ _ i hi, offHist_getElem _ _ i hi, offHist_getElem _ _ i hi⟩
  · intro hnr
    have hrows : ∀ (f : Nat → List ℚ),
        (∀ i, (f i).length = ops0.nblocks.1 * ops0.nblocks.2) →
        ∀ q ∈ offHist1 f opsF.nframes, q.length = ops0.nblocks.1 * ops0.nblocks.2 := by
      intro f hf q hq
      obtain ⟨i, _, rfl⟩ := List.mem_map.1 hq
      exact hf i
    refine ⟨offHist1 w.yoff1_of opsF.nframes, offHist1 w.xoff1_of opsF.nframes,
      offHist1 w.corr1_of opsF.nframes, ?_, ?_, ?_, ?_, ?_, ?_, ?_⟩
    · rw [final_yoff1_fresh w ops0 r b opsF tr h hfresh hnr, hN,
        matAdd_zeros_n _ _ _ (offHist1_length _ _) (hN ▸ hrows _ hny)]
    · rw [final_xoff1_fresh w ops0 r b opsF tr h hfresh hnr, hN,
        matAdd_zeros_n _ _ _ (offHist1_length _ _) (hN ▸ hrows _ hnx)]
    · rw [final_corrXY1_fresh w ops0 r b opsF tr h hfresh hnr, hN,
        matAdd_zeros_n _ _ _ (offHist1_length _ _) (hN ▸ hrows _ hnc)]
    · exact offHist1_length _ _
    · exact offHist1_length _ _
    · exact offHist1_length _ _
    · intro i hi
      exact ⟨offHist1_getElem _ _ i hi, offHist1_getElem _ _ i hi,
        offHist1_getElem _ _ i hi⟩

/-- C1 witness: the fresh nonrigid 60-frame session over a 1x2 block grid has
full displacement-history arrays with each frame's record at its own index. -/
theorem C1_offset_history_witness :
    opsN.yoff = none ∧
    ((∃ yl xl cl, opsFN.yoff = some yl ∧ opsFN.xoff = some xl ∧ opsFN.corrXY = some cl ∧
      yl.length = opsFN.nframes ∧ xl.length = opsFN.nframes ∧ cl.length = opsFN.nframes ∧
      ∀ i, i < opsFN.nframes →
        yl[i]? = some (wN.yoff_of i) ∧ xl[i]? = some (wN.xoff_of i) ∧
          cl[i]? = some (wN.corr_of i)) ∧
    (opsN.nonrigid = true →
      ∃ yl1 xl1 cl1, opsFN.yoff1 = some yl1 ∧ opsFN.xoff1 = some xl1 ∧
        opsFN.corrXY1 = some cl1 ∧
        yl1.length = opsFN.nframes ∧ xl1.length = opsFN.nframes ∧
        cl1.length = opsFN.nframes ∧
        ∀ i, i < opsFN.nframes →
          yl1[i]? = some (wN.yoff1_of i) ∧ xl1[i]? = some (wN.xoff1_of i) ∧
            cl1[i]? = some (wN.corr1_of i))) :=
  ⟨rfl, C1_offset_history wN opsN none true opsFN trN rfl rfl
    (fun _ => rfl) (fun _ => rfl) (fun _ => rfl)⟩

/-- C3: the code stores the alternate channel's final yielded running mean
divided again by the number of batches, so on a 60-frame two-batch session of
constant unit frames the stored image is half the true mean: the claim's
`sum / nframes` law fails. -/
theorem C3_alt_mean_bug :
    ((register_binary w3 ops3 none true).1.toOption.bind
        (fun o => lookupStore o "meanImg_chan2"))
      = some (imgDiv (imgDiv (frameSum w3.alt_frame (ops3.Ly * ops3.Lx) 60) (60 : ℚ))
          (2 : ℚ)) ∧
    ((register_binary w3 ops3 none true).1.toOption.bind
        (fun o => lookupStore o "meanImg_chan2"))
      ≠ some (imgDiv (frameSum w3.alt_frame (ops3.Ly * ops3.Lx) 60) (60 : ℚ)) := by
  have hok : register_binary w3 ops3 none true = (.ok opsF3, tr3) := rfl
  have hst := final_imgStore_multi w3 ops3 none true opsF3 tr3 hok (by decide)
  have hres : (resolved_nframes w3 ops3).toNat = 60 := by decide
  have hkeyA : meanImg_key_alt ops3 = "meanImg_chan2" := rfl
  have hkeyM : mean_img_key ops3 = "meanImg" := rfl
  have hb : nbatches 60 ops3.batch_size = 2 := rfl
  rw [hres, hkeyA, hkeyM, hb] at hst
  have hlook : lookupStore opsF3 "meanImg_chan2" =
      some (imgDiv (imgDiv (frameSum w3.alt_frame (ops3.Ly * ops3.Lx) 60) ((60 : Nat) : ℚ))
        ((2 : Nat) : ℚ)) := by
    simp only [lookupStore]
    rw [hst, List.lookup_cons]
    simp
  have hcast6 : ((60 : Nat) : ℚ) = (60 : ℚ) := by norm_num
  have hcast2 : ((2 : Nat) : ℚ) = (2 : ℚ) := by norm_num
  rw [hcast6, hcast2] at hlook
  constructor
  · rw [hok]
    simpa using hlook
  · rw [hok]
    have hS : frameSum w3.alt_frame (ops3.Ly * ops3.Lx) 60 = [(60 : ℚ)] := by
      have halt : w3.alt_frame = fun _ => [(1 : ℚ)] := rfl
      have hLL : ops3.Ly * ops3.Lx = 1 := rfl
      rw [halt, hLL, frameSum_const_one]
      norm_num
    intro heq
    simp only [Except.toOption, Option.bind] at heq
    rw [hlook] at heq
    rw [hS] at heq
    simp only [imgDiv, List.map, Option.some.injEq, List.cons.injEq, and_true] at heq
    norm_num at heq

end Suite2p
